import Mathlib

/-!
Verification of the MoneyPrinterTurbo pipeline orchestrator.

This file is a shallow embedding of the three source files of the
repository:

* `app/services/task.py` — stage functions, render stage and the
  pipeline orchestrator `start`;
* `app/services/thumbnail.py` — `extract_first_frame`;
* `video_generator_auto_task.py` — the batch driver.

External collaborators (LLM text service, TTS voice service,
speech-recognition, stock-footage download, video composition, the
ffmpeg process boundary, the filesystem) are modelled as oracle fields
of an `Env` record; everything the Python code itself computes is
translated into executable Lean definitions.  The render loop's
`_progress` accumulator is a Python float, modelled here by an exact
implementation of IEEE-754 binary64 arithmetic (round to nearest, ties
to even) over mantissa/exponent pairs.
-/

namespace MPT

/-! ### Python string primitives

Small executable models of the Python string operations used by the
sources.  They all work on `String.data` (the underlying character
list) so that every definition reduces inside the kernel. -/

/-- Models Python's default `str.strip` whitespace set for the ASCII
whitespace characters (space, tab, newline, carriage return, vertical
tab, form feed). -/
def isPySpace (c : Char) : Bool :=
  c = ' ' || c = '\t' || c = '\n' || c = '\r' || c.toNat = 11 || c.toNat = 12

/-- Models Python `str.strip()` (no argument): drop whitespace from both
ends of the string. -/
def pyStrip (s : String) : String :=
  String.mk (((s.data.dropWhile isPySpace).reverse.dropWhile isPySpace).reverse)

/-- Models Python `str.lower` for ASCII letters (the only characters
occurring in the provider names compared by the sources). -/
def asciiLower (c : Char) : Char :=
  if 65 ≤ c.toNat ∧ c.toNat ≤ 90 then Char.ofNat (c.toNat + 32) else c

/-- Models Python `str.lower()` applied characterwise. -/
def pyLower (s : String) : String :=
  String.mk (s.data.map asciiLower)

/-- Models `re.split` with a single-character class: each occurrence of
a character satisfying `p` separates two fields, so `n` delimiters
produce `n + 1` fields and empty fields are kept.  `re.split` never
returns an empty list. -/
def splitOnPred (p : Char → Bool) : List Char → List (List Char)
  | [] => [[]]
  | c :: rest =>
    let r := splitOnPred p rest
    if p c then [] :: r
    else
      match r with
      | [] => [[c]]
      | g :: gs => (c :: g) :: gs

/-- The character class `[,，]` of `generate_terms`: the Latin comma and
the full-width comma. -/
def isCommaChar (c : Char) : Bool :=
  c = ',' || c = '，'

/-- Models the Python membership test `needle in hay` restricted to the
case where `needle` starts at the head of `hay`. -/
def listStartsWith : List Char → List Char → Bool
  | [], _ => true
  | _ :: _, [] => false
  | a :: as, b :: bs => a = b && listStartsWith as bs

/-- Models the Python substring test `needle in hay`. -/
def containsSub (needle : List Char) : List Char → Bool
  | [] => needle.isEmpty
  | c :: rest => listStartsWith needle (c :: rest) || containsSub needle rest

/-- The orchestrator's check `"Error:" in video_script`. -/
def hasErrorMarker (s : String) : Bool :=
  containsSub ("Error:".data) s.data

/-- Models `os.path.join(a, b)` for the repository's uses: `a` is a task
directory without a trailing slash and `b` is a relative file name. -/
def joinPath (a b : String) : String :=
  a ++ "/" ++ b

/-! ### Decimal rendering of natural numbers

Models Python `str(idx)` for the non-negative integers interpolated
into file names.  A fuel-structured definition keeps it reducible by
the kernel; `decVal` is its left inverse, which yields injectivity. -/

/-- The decimal digit character of `d` (for `d < 10`). -/
def digitChr : ℕ → Char
  | 0 => '0' | 1 => '1' | 2 => '2' | 3 => '3' | 4 => '4'
  | 5 => '5' | 6 => '6' | 7 => '7' | 8 => '8' | _ => '9'

/-- Decimal digit list of `n`, most significant first; `fuel ≥ n`
suffices for full rendering. -/
def natToDecCore : ℕ → ℕ → List Char
  | 0, _ => []
  | fuel + 1, n =>
    if n < 10 then [digitChr n]
    else natToDecCore fuel (n / 10) ++ [digitChr (n % 10)]

/-- Models Python `str(n)` for `n : ℕ`. -/
def natToDec (n : ℕ) : String :=
  String.mk (natToDecCore (n + 1) n)

/-- Reads a decimal digit list back into a natural number. -/
def decVal (cs : List Char) : ℕ :=
  cs.foldl (fun a c => a * 10 + (c.toNat - 48)) 0

/-! ### Data model

Modelled from the spec: the `VideoParams` schema lives in
`app/models/schema.py`, which is not among the sources; its fields and
their types are reconstructed from spec §3 (Parameters) and from every
use site in `task.py` and `video_generator_auto_task.py`. -/

/-- Modelled from the spec: the two concatenation modes of §3. -/
inductive VideoConcatMode
  | random
  | sequential
deriving DecidableEq, Repr

/-- Modelled from the spec: the target aspect ratios of §3; only used
as an opaque value passed through to collaborators. -/
inductive VideoAspect
  | portrait
  | landscape
deriving DecidableEq, Repr

/-- Modelled from the spec: the transition mode of §3; only used as an
opaque value passed through to collaborators. -/
inductive VideoTransitionMode
  | none
  | fadeIn
  | fadeOut
deriving DecidableEq, Repr

/-- A material reference as handed to `video.preprocess_video`; the
sources only read its `url` attribute. -/
structure MaterialInfo where
  url : String
deriving DecidableEq, Repr

/-- The dynamically typed `params.video_terms` value: Python allows a
string, a list of strings, or `None`. -/
inductive TermsValue
  | str (s : String)
  | list (l : List String)
  | noneV
deriving DecidableEq, Repr

/-- Python truthiness of `params.video_terms` (`if not video_terms`). -/
def termsFalsy : TermsValue → Bool
  | .str s => s = ""
  | .list l => l.isEmpty
  | .noneV => true

/-- Modelled from the spec: the Parameters record of §3, with the field
names used by `task.py`. -/
structure VideoParams where
  video_subject : String
  video_script : String := ""
  video_terms : TermsValue := .noneV
  video_language : String := ""
  paragraph_number : ℕ := 1
  voice_name : String := ""
  voice_rate : ℚ := 1
  subtitle_enabled : Bool := true
  video_source : String := "pexels"
  video_materials : List MaterialInfo := []
  video_clip_duration : ℕ := 5
  video_concat_mode : VideoConcatMode := .random
  video_transition_mode : VideoTransitionMode := .none
  video_aspect : VideoAspect := .portrait
  video_count : ℕ := 1
  n_threads : ℕ := 2

/-- The task states written to the Task State Store by `task.py`
(`const.TASK_STATE_PROCESSING` / `COMPLETE` / `FAILED`). -/
inductive TaskState
  | processing
  | complete
  | failed
deriving DecidableEq, Repr

/-- The `video_terms` variable of `start`: it is the string `""` when
the video source is `local` (the terms stage is skipped) and otherwise
the list produced by the terms stage. -/
inductive TermsOut
  | strEmpty
  | list (l : List String)
deriving DecidableEq, Repr

/-- The list carried by a `TermsOut` (`""` behaves as no terms when the
value is forwarded to the materials stage). -/
def termsToList : TermsOut → List String
  | .strEmpty => []
  | .list l => l

/-- The result dictionary returned by `start`; each Python key becomes
an optional field, `none` meaning the key is absent. -/
structure ResultRecord where
  script : Option String := none
  terms : Option TermsOut := none
  audio_file : Option String := none
  audio_duration : Option ℤ := none
  subtitle_path : Option String := none
  materials : Option (List String) := none
  videos : Option (List String) := none
  combined_videos : Option (List String) := none
  thumbnails : Option (List String) := none
deriving DecidableEq, Repr

/-- One call to `sm.state.update_task`: the keyword arguments actually
passed (absent keywords are `none` / the empty field record). -/
structure Update where
  u_state : Option TaskState := none
  u_progress : Option ℚ := none
  u_fields : ResultRecord := {}
deriving DecidableEq, Repr

/-- `update_task(task_id, state=PROCESSING, progress=q)`. -/
def procUpd (q : ℚ) : Update := { u_state := some .processing, u_progress := some q }

/-- `update_task(task_id, state=FAILED)`. -/
def failUpd : Update := { u_state := some .failed }

/-- `update_task(task_id, state=COMPLETE, progress=100, **fields)`. -/
def complUpd (fields : ResultRecord) : Update :=
  { u_state := some .complete, u_progress := some 100, u_fields := fields }

/-- `update_task(task_id, progress=q)` (render-loop progress writes). -/
def progUpd (q : ℚ) : Update := { u_progress := some q }

/-- One call to `material.download_videos`, with the keyword names of
`get_video_materials` (including the source's `video_contact_mode`
spelling). -/
structure DownloadCall where
  task_id : String
  search_terms : List String
  source : String
  video_aspect : VideoAspect
  video_contact_mode : VideoConcatMode
  audio_duration : ℤ
  max_clip_duration : ℕ
deriving DecidableEq, Repr

/-- One call to `video.combine_videos` issued by the render loop. -/
structure CombineCall where
  combined_video_path : String
  video_paths : List String
  audio_file : String
  video_aspect : VideoAspect
  video_concat_mode : VideoConcatMode
  video_transition_mode : VideoTransitionMode
  max_clip_duration : ℕ
  threads : ℕ
deriving DecidableEq, Repr

/-- The external collaborators consumed by the pipeline, fixed for one
run (spec §6).  Side-effecting calls whose outputs the pipeline later
reads are represented by oracle fields describing those outputs. -/
structure Env where
  /-- `llm.generate_script(video_subject, language, paragraph_number)`. -/
  llm_generate_script : String → String → ℕ → String
  /-- `llm.generate_terms(video_subject, video_script, amount)`. -/
  llm_generate_terms : String → String → ℕ → List String
  /-- Whether `voice.tts` returns a `SubMaker` (`true`) or `None`. -/
  tts_ok : Bool
  /-- `voice.get_audio_duration(sub_maker)` in seconds. -/
  tts_duration : ℚ
  /-- `config.app.get("subtitle_provider", "edge")`. -/
  subtitle_provider : String
  /-- Whether the subtitle file exists after `voice.create_subtitle`
  (the file-existence check deciding the whisper fallback). -/
  edge_subtitle_written : Bool
  /-- `subtitle.file_to_subtitles` output when the whisper path ran. -/
  whisper_lines : List String
  /-- `subtitle.file_to_subtitles` output when only the edge path ran. -/
  edge_lines : List String
  /-- `video.preprocess_video(materials, clip_duration)`. -/
  preprocess_video : List MaterialInfo → ℕ → List MaterialInfo
  /-- `material.download_videos(...)`. -/
  download_videos : DownloadCall → List String
  /-- `overlay_title_on_first_frame(final_video, title)`. -/
  thumb : String → String → String
  /-- `utils.task_dir(task_id)`. -/
  task_dir : String → String

/-! ### Stage functions (`app/services/task.py`) -/

/-- The script text after the script stage's selection logic:
`(params.video_script or "").strip()`, falling back to the LLM
collaborator when empty. -/
def effective_script (env : Env) (p : VideoParams) : String :=
  let s0 := pyStrip p.video_script
  if s0 = "" then env.llm_generate_script p.video_subject p.video_language p.paragraph_number
  else s0

/-- `generate_script` (task.py lines 19–36): first component is the
list of Task State Store writes the stage performs, second its return
value (`none` models Python `None`). -/
def generate_script (env : Env) (p : VideoParams) : List Update × Option String :=
  if effective_script env p = "" then ([failUpd], none)
  else ([], some (effective_script env p))

/-- The terms list computed by `generate_terms` before its emptiness
check: supplied terms are split on `[,，]` (strings) or trimmed
elementwise (lists); unsupplied terms come from the LLM collaborator
with `amount=5`. -/
def terms_value (env : Env) (p : VideoParams) (video_script : String) : List String :=
  if termsFalsy p.video_terms then env.llm_generate_terms p.video_subject video_script 5
  else
    match p.video_terms with
    | .str s => (splitOnPred isCommaChar s.data).map (fun g => pyStrip (String.mk g))
    | .list l => l.map pyStrip
    | .noneV => env.llm_generate_terms p.video_subject video_script 5

/-- `generate_terms` (task.py lines 39–60).  The `ValueError` branch
for a non-string non-list supplied value is unreachable over the typed
`TermsValue`. -/
def generate_terms (env : Env) (p : VideoParams) (video_script : String) :
    List Update × Option (List String) :=
  if terms_value env p video_script = [] then ([failUpd], none)
  else ([], some (terms_value env p video_script))

/-- The fixed audio path `path.join(utils.task_dir(task_id), "audio.mp3")`. -/
def audio_path (tdir : String) : String := joinPath tdir "audio.mp3"

/-- `generate_audio` (task.py lines 74–94): on TTS success it returns
the audio path and `math.ceil` of the measured duration; on failure it
marks the task FAILED and returns `None`. -/
def generate_audio (env : Env) (tdir : String) : List Update × Option (String × ℤ) :=
  if env.tts_ok then ([], some (audio_path tdir, Int.ceil env.tts_duration))
  else ([failUpd], none)

/-- `generate_subtitle` (task.py lines 97–124).  The function never
writes to the Task State Store; the edge/whisper branches only write
the subtitle file, whose parse result is the corresponding oracle
(`edge_lines` also stands for the parse outcome when neither branch
ran).  An empty parse is the soft failure returning `""`. -/
def generate_subtitle (env : Env) (p : VideoParams) (tdir : String) : String :=
  if p.subtitle_enabled = false then ""
  else
    let subtitle_path := joinPath tdir "subtitle.srt"
    let provider := pyLower (pyStrip env.subtitle_provider)
    let subtitle_fallback := provider = "edge" ∧ env.edge_subtitle_written = false
    let subtitle_lines :=
      if provider = "whisper" ∨ subtitle_fallback then env.whisper_lines else env.edge_lines
    if subtitle_lines = [] then "" else subtitle_path

/-- The `material.download_videos` call record built by
`get_video_materials` (task.py lines 142–150); note that it forwards
`params.video_concat_mode` unchanged. -/
def materials_download_call (task_id : String) (p : VideoParams)
    (video_terms : List String) (audio_duration : ℤ) : DownloadCall :=
  { task_id := task_id
    search_terms := video_terms
    source := p.video_source
    video_aspect := p.video_aspect
    video_contact_mode := p.video_concat_mode
    audio_duration := audio_duration * p.video_count
    max_clip_duration := p.video_clip_duration }

/-- `get_video_materials` (task.py lines 127–157): writes, return
value, and the list of download calls issued. -/
def get_video_materials (env : Env) (task_id : String) (p : VideoParams)
    (video_terms : List String) (audio_duration : ℤ) :
    List Update × Option (List String) × List DownloadCall :=
  if p.video_source = "local" then
    let materials := env.preprocess_video p.video_materials p.video_clip_duration
    if materials = [] then ([failUpd], none, [])
    else ([], some (materials.map MaterialInfo.url), [])
  else
    let call := materials_download_call task_id p video_terms audio_duration
    let downloaded_videos := env.download_videos call
    if downloaded_videos = [] then ([failUpd], none, [call])
    else ([], some downloaded_videos, [call])

/-! ### Render stage (`generate_final_videos`, task.py lines 160–211) -/

/-- A Unicode word character as matched by Python's `re` module `\w`
with `str` patterns, on the ranges relevant to this repository: ASCII
letters and digits, the underscore, and the CJK Unified Ideographs
block `U+4E00`–`U+9FFF` (the repository's subjects are Chinese).  Other
Unicode categories matched by `\w` play no role in the theorems. -/
def pyWordChar (c : Char) : Bool :=
  let n := c.toNat
  (65 ≤ n && n ≤ 90) || (97 ≤ n && n ≤ 122) || (48 ≤ n && n ≤ 57) ||
    n == 95 || (0x4E00 ≤ n && n ≤ 0x9FFF)

/-- `re.sub(r"[^\w\-]", "_", params.video_subject.strip())` (task.py
line 190): the trimmed subject with every character that is neither a
`\w` word character nor a hyphen replaced by an underscore. -/
def sanitize_subject (subject : String) : String :=
  String.mk ((pyStrip subject).data.map (fun c => if pyWordChar c || c = '-' then c else '_'))

/-- The effective concatenation mode of the render stage (task.py
lines 165–167): the caller's mode when exactly one variant is
requested, otherwise forced to `random`. -/
def effective_concat_mode (p : VideoParams) : VideoConcatMode :=
  if p.video_count = 1 then p.video_concat_mode else VideoConcatMode.random

/-! ### Binary64 floating-point model

The render loop accumulates `_progress` in Python floats, i.e.
IEEE-754 binary64 with round to nearest, ties to even.  The model
below implements that arithmetic exactly for the non-negative,
normal-range values occurring here: a float is a mantissa/exponent
pair valued `m·2^e`, and each operation rounds its exact result to 53
significant bits.  Overflow, underflow, subnormals, negative zero and
NaNs cannot arise in the render loop and are not modelled.  The
implementation was checked bit-for-bit against CPython's float
division and running addition for every `video_count ≤ 500`. -/

/-- A non-negative binary64 value `m · 2^e`. -/
structure F64 where
  m : ℕ
  e : ℤ
deriving DecidableEq, Repr

/-- The exact rational value of a binary64 number. -/
def F64.toRat (x : F64) : ℚ :=
  (x.m : ℚ) * (2 : ℚ) ^ x.e

/-- Bit length of a natural number, fuel-structured so that the kernel
can evaluate it; the recursion halves `n`, so `bitLen n n` is exact. -/
def bitLenCore : ℕ → ℕ → ℕ
  | 0, _ => 0
  | fuel + 1, n => if n = 0 then 0 else 1 + bitLenCore fuel (n / 2)

/-- Bit length of a natural number (`0` for `0`). -/
def bitLen (n : ℕ) : ℕ := bitLenCore n n

/-- Round the exact value `a · 2^t` to at most 53 significant bits,
round to nearest, ties to even; carry renormalization when rounding
overflows to `2^53`. -/
def roundF (a : ℕ) (t : ℤ) : F64 :=
  let s := bitLen a
  if s ≤ 53 then ⟨a, t⟩
  else
    let drop := s - 53
    let q := a / 2 ^ drop
    let r := a % 2 ^ drop
    let half := 2 ^ (drop - 1)
    let q2 := if half < r then q + 1 else if r < half then q
      else if q % 2 = 0 then q else q + 1
    if q2 = 2 ^ 53 then ⟨2 ^ 52, t + drop + 1⟩ else ⟨q2, t + drop⟩

/-- Binary64 addition of non-negative values: align the exponents,
add the integer mantissas exactly, round. -/
def fadd (x y : F64) : F64 :=
  if x.e ≤ y.e then roundF (x.m + y.m * 2 ^ (y.e - x.e).toNat) x.e
  else roundF (x.m * 2 ^ (x.e - y.e).toNat + y.m) y.e

/-- Least `k ≤ fuel` with `x · 2^k ≥ tgt` (fuel-structured). -/
def scaleUp : ℕ → ℕ → ℕ → ℕ
  | 0, _, _ => 0
  | fuel + 1, x, tgt => if tgt ≤ x then 0 else 1 + scaleUp fuel (2 * x) tgt

/-- Rounding tail of `fdiv`: round `(num/den) · 2^t` to nearest, ties
to even, given `num/den ∈ [2^52, 2^53)`. -/
def fdivCore (num den : ℕ) (t : ℤ) : F64 :=
  let q := num / den
  let r := num % den
  let q2 := if den < 2 * r then q + 1 else if 2 * r < den then q
    else if q % 2 = 0 then q else q + 1
  if q2 = 2 ^ 53 then ⟨2 ^ 52, t + 1⟩ else ⟨q2, t⟩

/-- Binary64 division of positive values: scale the exact quotient's
mantissa into `[2^52, 2^53)` by shifting the numerator or the
denominator, then divide with remainder and round. -/
def fdiv (x y : F64) : F64 :=
  let a := x.m
  let b := y.m
  if a < 2 ^ 52 * b then
    let d := scaleUp 4096 a (2 ^ 52 * b)
    fdivCore (a * 2 ^ d) b (x.e - y.e - d)
  else
    let u := scaleUp 4096 (2 ^ 53 * b) (a + 1)
    fdivCore a (b * 2 ^ u) (x.e - y.e + u)

/-- The binary64 value of a natural-number literal (exact below
`2^53`, as for the sources' `50`, `2` and `video_count`). -/
def F64.ofNat (n : ℕ) : F64 := roundF n 0

/-- `k` successive binary64 additions of `step`, left to right — the
render loop's float accumulator after `k` increments from `x`. -/
def fsum (step : F64) : ℕ → F64 → F64
  | 0, x => x
  | k + 1, x => fsum step k (fadd x step)

/-- The per-write progress increment `50 / params.video_count / 2` of
the render loop, computed in binary64 exactly as the source computes
it (two successive float divisions). -/
def rstep (p : VideoParams) : F64 :=
  fdiv (fdiv (F64.ofNat 50) (F64.ofNat p.video_count)) (F64.ofNat 2)

/-- The combined-timeline path of variant `idx`. -/
def combined_path (tdir : String) (idx : ℕ) : String :=
  joinPath tdir ("combined-" ++ natToDec idx ++ ".mp4")

/-- The final video path of variant `idx`. -/
def final_path (tdir : String) (subject : String) (idx : ℕ) : String :=
  joinPath tdir (sanitize_subject subject ++ "-" ++ natToDec idx ++ ".mp4")

/-- Accumulator of the render loop: the three result lists, the
combine calls issued, the Task State Store writes, and the running
`_progress` value — a Python float in the source (`_progress = 50`
initially), a binary64 value here. -/
structure RenderAcc where
  final_video_paths : List String := []
  combined_video_paths : List String := []
  thumbnail_paths : List String := []
  combine_calls : List CombineCall := []
  writes : List Update := []
  prog : F64 := F64.ofNat 50

/-- The `video.combine_videos` call of variant `idx` (task.py
lines 176–185). -/
def render_combine_call (p : VideoParams) (tdir : String)
    (downloaded_videos : List String) (audio_file : String)
    (mode : VideoConcatMode) (idx : ℕ) : CombineCall :=
  { combined_video_path := combined_path tdir idx
    video_paths := downloaded_videos
    audio_file := audio_file
    video_aspect := p.video_aspect
    video_concat_mode := mode
    video_transition_mode := p.video_transition_mode
    max_clip_duration := p.video_clip_duration
    threads := p.n_threads }

/-- One iteration of the render loop for loop variable `i`
(variant `idx = i + 1`). -/
def renderIter (thumb : String → String → String) (p : VideoParams) (tdir : String)
    (downloaded_videos : List String) (audio_file subtitle_path : String)
    (mode : VideoConcatMode) (acc : RenderAcc) (i : ℕ) : RenderAcc :=
  let idx := i + 1
  let combined_video := combined_path tdir idx
  let call := render_combine_call p tdir downloaded_videos audio_file mode idx
  let p1 := fadd acc.prog (rstep p)
  let final_video := final_path tdir p.video_subject idx
  -- video.generate_video renders final_video; a file side effect only.
  let p2 := fadd p1 (rstep p)
  let thumb_path := thumb final_video p.video_subject
  { final_video_paths := acc.final_video_paths ++ [final_video]
    combined_video_paths := acc.combined_video_paths ++ [combined_video]
    thumbnail_paths := acc.thumbnail_paths ++ (if thumb_path = "" then [] else [thumb_path])
    combine_calls := acc.combine_calls ++ [call]
    writes := acc.writes ++ [progUpd p1.toRat, progUpd p2.toRat]
    prog := p2 }

/-- `for i in range(params.video_count)`, with the remaining iteration
count as the structural recursion argument and `i` the current loop
variable. -/
def renderLoop (thumb : String → String → String) (p : VideoParams) (tdir : String)
    (downloaded_videos : List String) (audio_file subtitle_path : String)
    (mode : VideoConcatMode) : ℕ → ℕ → RenderAcc → RenderAcc
  | 0, _, acc => acc
  | n + 1, i, acc =>
    renderLoop thumb p tdir downloaded_videos audio_file subtitle_path mode n (i + 1)
      (renderIter thumb p tdir downloaded_videos audio_file subtitle_path mode acc i)

/-- `generate_final_videos` (task.py lines 160–211). -/
def generate_final_videos (thumb : String → String → String) (p : VideoParams)
    (tdir : String) (downloaded_videos : List String)
    (audio_file subtitle_path : String) : RenderAcc :=
  renderLoop thumb p tdir downloaded_videos audio_file subtitle_path
    (effective_concat_mode p) p.video_count 0 {}

/-! ### Pipeline orchestrator (`start`, task.py lines 214–298) -/

/-- `start`: returns the full sequence of Task State Store writes and
the orchestrator's return value (`none` models returning `None`).
`save_script_data` only serializes `script.json` to disk and is not
modelled.  The string-to-enum normalization of `video_concat_mode`
(lines 218–219) is the identity over the typed `VideoConcatMode`. -/
def start (env : Env) (task_id : String) (p : VideoParams) (stop_at : String) :
    List Update × Option ResultRecord :=
  let tdir := env.task_dir task_id
  let w0 : List Update := [procUpd 5]
  let gs := generate_script env p
  match gs.2 with
  | none => (w0 ++ gs.1 ++ [failUpd], none)
  | some video_script =>
    if hasErrorMarker video_script then (w0 ++ gs.1 ++ [failUpd], none)
    else
      let w1 := w0 ++ gs.1 ++ [procUpd 10]
      if stop_at = "script" then
        (w1 ++ [complUpd { script := some video_script }], some { script := some video_script })
      else
        let tRes : List Update × Option TermsOut :=
          if p.video_source = "local" then ([], some .strEmpty)
          else
            let gt := generate_terms env p video_script
            (gt.1, gt.2.map TermsOut.list)
        match tRes.2 with
        | none => (w1 ++ tRes.1 ++ [failUpd], none)
        | some video_terms =>
          if stop_at = "terms" then
            (w1 ++ tRes.1 ++ [complUpd { terms := some video_terms }],
             some { script := some video_script, terms := some video_terms })
          else
            let w2 := w1 ++ tRes.1 ++ [procUpd 20]
            let ga := generate_audio env tdir
            match ga.2 with
            | none => (w2 ++ ga.1 ++ [failUpd], none)
            | some ad =>
              let audio_file := ad.1
              let audio_duration := ad.2
              let w3 := w2 ++ ga.1 ++ [procUpd 30]
              if stop_at = "audio" then
                (w3 ++ [complUpd { audio_file := some audio_file }],
                 some { audio_file := some audio_file, audio_duration := some audio_duration })
              else
                let subtitle_path := generate_subtitle env p tdir
                if stop_at = "subtitle" then
                  (w3 ++ [complUpd { subtitle_path := some subtitle_path }],
                   some { subtitle_path := some subtitle_path })
                else
                  let w4 := w3 ++ [procUpd 40]
                  let gm := get_video_materials env task_id p (termsToList video_terms) audio_duration
                  match gm.2.1 with
                  | none => (w4 ++ gm.1 ++ [failUpd], none)
                  | some downloaded_videos =>
                    if stop_at = "materials" then
                      (w4 ++ gm.1 ++ [complUpd { materials := some downloaded_videos }],
                       some { materials := some downloaded_videos })
                    else
                      let w5 := w4 ++ gm.1 ++ [procUpd 50]
                      let r := generate_final_videos env.thumb p tdir downloaded_videos
                        audio_file subtitle_path
                      if r.final_video_paths = [] then (w5 ++ r.writes ++ [failUpd], none)
                      else
                        let result : ResultRecord :=
                          { videos := some r.final_video_paths
                            combined_videos := some r.combined_video_paths
                            thumbnails := some r.thumbnail_paths
                            script := some video_script
                            terms := some video_terms
                            audio_file := some audio_file
                            audio_duration := some audio_duration
                            subtitle_path := some subtitle_path
                            materials := some downloaded_videos }
                        (w5 ++ r.writes ++ [complUpd result], some result)

/-! ### Thumbnail module (`app/services/thumbnail.py`) -/

/-- The index of the last occurrence of `c` in `cs`, if any (Python
`str.rfind`). -/
def lastIndexOf (c : Char) : List Char → Option ℕ
  | [] => none
  | x :: xs =>
    match lastIndexOf c xs with
    | some i => some (i + 1)
    | none => if x = c then some 0 else none

/-- Models `os.path.splitext` (posixpath): split off the extension at
the last dot, provided that dot lies after the last path separator and
the basename has a non-dot character before it (leading dots do not
start an extension). -/
def py_splitext (s : String) : String × String :=
  let cs := s.data
  match lastIndexOf '.' cs with
  | none => (s, "")
  | some di =>
    let si := ((lastIndexOf '/' cs).map (· + 1)).getD 0
    if si ≤ di ∧ ((cs.drop si).take (di - si)).any (fun c => c ≠ '.') then
      (String.mk (cs.take di), String.mk (cs.drop di))
    else (s, "")

/-- The default thumbnail path of `extract_first_frame`:
`f"{base}-thumbnail.jpg"` with `base, _ = os.path.splitext(video_path)`. -/
def default_thumbnail_path (video_path : String) : String :=
  (py_splitext video_path).1 ++ "-thumbnail.jpg"

/-- `extract_first_frame` (thumbnail.py lines 14–96).  The two ffmpeg
invocations are the external process boundary; `extract_ok` is whether
first-frame extraction succeeds and `overlay_ok` whether the drawtext
overlay succeeds.  If extraction fails the function returns `""`
(line 54); afterwards it returns `thumbnail_path` both on overlay
success (line 92) and on overlay failure (line 96), so `overlay_ok`
does not affect the returned value.  The drawtext filter construction
(line wrapping and escaping) only feeds the external tool and does not
influence the return value, so it is not modelled. -/
def extract_first_frame (extract_ok overlay_ok : Bool) (video_path title : String)
    (thumbnail_path : Option String := none) (max_chars_per_line : ℕ := 6)
    (fontsize : ℕ := 160) (fontfile : Option String := none) : String :=
  let tp := thumbnail_path.getD (default_thumbnail_path video_path)
  if extract_ok = false then ""
  else tp

/-- Modelled from the spec: `overlay_title_on_first_frame`, imported by
the render stage from `app.services.thumbnail`, is absent from the
sources.  Per spec §4.2 the render stage derives a thumbnail by
"extracting the first frame of the rendered final video and compositing
the subject text onto it", which is exactly what `extract_first_frame`
implements, so it is modelled as `extract_first_frame` applied with its
default optional arguments. -/
def overlay_title_on_first_frame (extract_ok overlay_ok : Bool)
    (video_path title : String) : String :=
  extract_first_frame extract_ok overlay_ok video_path title

/-! ### Batch driver (`video_generator_auto_task.py`) -/

/-- `load_tasks` (lines 21–28): `file_present` models
`os.path.exists(TASK_FILE)`, `lines` the file's lines.  Python keeps
the stripped line for every line whose strip is truthy. -/
def load_tasks (file_present : Bool) (lines : List String) : List String :=
  if file_present = false then []
  else (lines.filter (fun l => pyStrip l ≠ "")).map pyStrip

/-- `load_completed` (lines 32–36): the completed set, modelled as the
underlying list of stripped non-empty lines and queried only through
membership (so duplicates are harmless, matching `set(...)`). -/
def load_completed (file_present : Bool) (lines : List String) : List String :=
  if file_present = false then []
  else (lines.filter (fun l => pyStrip l ≠ "")).map pyStrip

/-- Observable outcome of one batch run: the subjects for which the
orchestrator was invoked, and the lines `save_completed` appended to
the completed file. -/
structure BatchOutcome where
  processed : List String := []
  appended : List String := []
deriving DecidableEq, Repr

/-- `main` (lines 161–199).  The per-subject body (building params,
invoking the orchestrator, cover composition, `save_completed`, and the
exception handler) is abstracted by `process_appends`, returning the
lines the body appends to the completed file for that subject; the
driver's own control flow — the empty-task early return and the
completed-set skip — is modelled exactly. -/
def main_run (tasks_present completed_present : Bool)
    (task_lines completed_lines : List String)
    (process_appends : String → List String) : BatchOutcome :=
  let all_tasks := load_tasks tasks_present task_lines
  let completed := load_completed completed_present completed_lines
  if all_tasks = [] then {}
  else
    all_tasks.foldl
      (fun acc subject =>
        if subject ∈ completed then acc
        else { processed := acc.processed ++ [subject]
               appended := acc.appended ++ process_appends subject })
      {}

/-! ### Observables and spec-side reference definitions -/

/-- The sequence of progress values written to the Task State Store
during one `start` run. -/
def run_trace (env : Env) (task_id : String) (p : VideoParams) (stop_at : String) : List ℚ :=
  ((start env task_id p stop_at).1).filterMap Update.u_progress

/-- The last task state written to the Task State Store. -/
def lastState (ws : List Update) : Option TaskState :=
  (ws.filterMap Update.u_state).getLast?

/-- The last progress value written to the Task State Store. -/
def lastProgress (ws : List Update) : Option ℚ :=
  (ws.filterMap Update.u_progress).getLast?

/-- Spec-side reference for C1: the list obtained by splitting on both
comma delimiters with whitespace trimmed around each term, preserving
the original order. -/
def specTrimmedSplit (s : String) : List String :=
  (splitOnPred isCommaChar s.data).map (fun g => pyStrip (String.mk g))

/-- Spec-side reference for C2: the claimed sanitizer, replacing every
character outside `[A-Za-z0-9_-]` by an underscore in the trimmed
subject. -/
def specSafeSubject (subject : String) : String :=
  String.mk ((pyStrip subject).data.map (fun c =>
    let n := c.toNat
    if (65 ≤ n && n ≤ 90) || (97 ≤ n && n ≤ 122) || (48 ≤ n && n ≤ 57) ||
        n == 95 || n == 45 then c else '_'))

/-- Spec-side reference for C2: the claimed final file name of variant
`idx`. -/
def specFinalName (tdir subject : String) (idx : ℕ) : String :=
  joinPath tdir (specSafeSubject subject ++ "-" ++ natToDec idx ++ ".mp4")

/-- The render-loop progress writes of a full run with `video_count`
variants: the binary64 partial sums of the float accumulator, as exact
rationals. -/
def render_trace (p : VideoParams) : List ℚ :=
  (List.range (2 * p.video_count)).map
    (fun (k : ℕ) => (fsum (rstep p) (k + 1) (F64.ofNat 50)).toRat)

/-- The full progress-write sequence of a successful `stop_at="video"`
run. -/
def full_trace (p : VideoParams) : List ℚ :=
  [5, 10, 20, 30, 40, 50] ++ render_trace p ++ [100]

/-- Integrality of a progress-write sequence: every written value is an
integer (a part of C4's claim that fails on the code). -/
def all_integral (ps : List ℚ) : Prop :=
  ∀ q ∈ ps, ∃ z : ℤ, q = (z : ℚ)

/-- Success conditions of the script stage as seen by the orchestrator:
a non-empty script without the `"Error:"` marker. -/
def script_ok (env : Env) (p : VideoParams) : Prop :=
  effective_script env p ≠ "" ∧ hasErrorMarker (effective_script env p) = false

/-- The `video_terms` variable of a run that passed the terms block. -/
def run_terms_out (env : Env) (p : VideoParams) : TermsOut :=
  if p.video_source = "local" then .strEmpty
  else .list (terms_value env p (effective_script env p))

/-- Success condition of the terms block of `start`: skipped for local
sources, otherwise the terms stage must produce a non-empty list. -/
def terms_ok (env : Env) (p : VideoParams) : Prop :=
  p.video_source ≠ "local" → terms_value env p (effective_script env p) ≠ []

/-- Success condition of the materials stage, at the arguments `start`
passes to it. -/
def materials_ok (env : Env) (task_id : String) (p : VideoParams) : Prop :=
  (get_video_materials env task_id p (termsToList (run_terms_out env p))
    (Int.ceil env.tts_duration)).2.1.isSome = true

/-! ### Concrete fixtures for the witness theorems -/

/-- A concrete collaborator environment where every stage succeeds. -/
def envW : Env where
  llm_generate_script := fun _ _ _ => "A short script."
  llm_generate_terms := fun _ _ _ => ["money", "bank"]
  tts_ok := true
  tts_duration := 30
  subtitle_provider := "whisper"
  edge_subtitle_written := false
  whisper_lines := ["line one"]
  edge_lines := ["line one"]
  preprocess_video := fun ms _ => ms
  download_videos := fun _ => ["v1.mp4", "v2.mp4"]
  thumb := fun v _ => v ++ "-thumbnail.jpg"
  task_dir := fun t => "tasks/" ++ t

/-- `envW` with a failing TTS collaborator. -/
def envNoTts : Env := { envW with tts_ok := false }

/-- `envW` whose whisper path recognizes zero subtitle lines. -/
def envNoSubLines : Env := { envW with whisper_lines := [] }

/-- Default parameters for a one-variant stock-footage run. -/
def paramsW : VideoParams := { video_subject := "money" }

/-- Parameters supplying `video_terms` as a comma-separated string
mixing both delimiters, with an empty middle field. -/
def paramsTermsStr : VideoParams :=
  { video_subject := "m", video_terms := .str "money,，stock" }

/-- Parameters supplying `video_terms` as a comma-separated string with
whitespace around the fields. -/
def paramsTermsW : VideoParams :=
  { video_subject := "m", video_terms := .str " a,b ,，c" }

/-- Parameters with the repository's own default (Chinese) subject. -/
def paramsCJK : VideoParams := { video_subject := "金钱的作用" }

/-- Parameters requesting three variants. -/
def paramsN3 : VideoParams := { video_subject := "money", video_count := 3 }

/-- Parameters requesting six variants. -/
def paramsN6 : VideoParams := { video_subject := "money", video_count := 6 }

/-- Parameters requesting two variants with sequential concatenation. -/
def paramsN2Seq : VideoParams :=
  { video_subject := "money", video_count := 2, video_concat_mode := .sequential }

/-! ### Basic lemmas -/

theorem digitChr_toNat {d : ℕ} (h : d < 10) : (digitChr d).toNat = 48 + d := by
  interval_cases d <;> decide

theorem decVal_append_digit (cs : List Char) (c : Char) :
    decVal (cs ++ [c]) = decVal cs * 10 + (c.toNat - 48) := by
  simp [decVal, List.foldl_append]

theorem decVal_natToDecCore : ∀ fuel n, n ≤ fuel → decVal (natToDecCore fuel n) = n := by
  intro fuel
  induction fuel with
  | zero =>
    intro n hn
    interval_cases n
    simp [natToDecCore, decVal]
  | succ f ih =>
    intro n hn
    by_cases h10 : n < 10
    · simp only [natToDecCore, if_pos h10, decVal, List.foldl]
      rw [digitChr_toNat h10]
      omega
    · have hdiv : n / 10 ≤ f := by omega
      simp only [natToDecCore, if_neg h10]
      rw [decVal_append_digit, ih _ hdiv, digitChr_toNat (Nat.mod_lt n (by omega))]
      omega

theorem decVal_natToDec_data (n : ℕ) : decVal (natToDec n).data = n := by
  simpa [natToDec] using decVal_natToDecCore (n + 1) n (by omega)

theorem natToDec_data_injective : Function.Injective (fun n => (natToDec n).data) := by
  intro a b h
  have ha := decVal_natToDec_data a
  simp only at h
  rw [h, decVal_natToDec_data b] at ha
  exact ha.symm

theorem natToDec_injective : Function.Injective natToDec := by
  intro a b h
  exact natToDec_data_injective (congrArg String.data h)

theorem splitOnPred_ne_nil (q : Char → Bool) : ∀ cs, splitOnPred q cs ≠ [] := by
  intro cs
  cases cs with
  | nil => simp [splitOnPred]
  | cons c rest =>
    simp only [splitOnPred]
    split
    · simp
    · split <;> simp

theorem filterMap_some_map {α β : Type} (f : α → β) :
    ∀ l : List α, l.filterMap (fun x => some (f x)) = l.map f := by
  intro l
  induction l with
  | nil => rfl
  | cons a l ih => simp only [List.filterMap_cons, List.map_cons, ih]

theorem flatMap_singleton_map {α β : Type} (f : α → β) :
    ∀ l : List α, (l.flatMap fun x => [f x]) = l.map f := by
  intro l
  induction l with
  | nil => rfl
  | cons a l ih => simp only [List.flatMap_cons, List.map_cons, List.singleton_append, ih]

theorem toRat_negExp (m k : ℕ) :
    F64.toRat ⟨m, -(k : ℤ)⟩ = (m : ℚ) / 2 ^ k := by
  rw [F64.toRat, zpow_neg, zpow_natCast, div_eq_mul_inv]

/-! ### Render-loop characterization lemmas -/

section RenderLemmas

variable (thumb : String → String → String) (p : VideoParams) (tdir : String)
  (downloaded_videos : List String) (audio_file subtitle_path : String)
  (mode : VideoConcatMode)

theorem renderLoop_final_video_paths :
    ∀ (n i : ℕ) (acc : RenderAcc),
      (renderLoop thumb p tdir downloaded_videos audio_file subtitle_path mode
          n i acc).final_video_paths
        = acc.final_video_paths
          ++ (List.range' (i + 1) n).map (final_path tdir p.video_subject) := by
  intro n
  induction n with
  | zero => intro i acc; simp [renderLoop]
  | succ n ih =>
    intro i acc
    rw [renderLoop, ih, List.range'_succ]
    simp [renderIter]

theorem renderLoop_combined_video_paths :
    ∀ (n i : ℕ) (acc : RenderAcc),
      (renderLoop thumb p tdir downloaded_videos audio_file subtitle_path mode
          n i acc).combined_video_paths
        = acc.combined_video_paths ++ (List.range' (i + 1) n).map (combined_path tdir) := by
  intro n
  induction n with
  | zero => intro i acc; simp [renderLoop]
  | succ n ih =>
    intro i acc
    rw [renderLoop, ih, List.range'_succ]
    simp [renderIter]

theorem renderLoop_combine_calls :
    ∀ (n i : ℕ) (acc : RenderAcc),
      (renderLoop thumb p tdir downloaded_videos audio_file subtitle_path mode
          n i acc).combine_calls
        = acc.combine_calls
          ++ (List.range' (i + 1) n).map
              (render_combine_call p tdir downloaded_videos audio_file mode) := by
  intro n
  induction n with
  | zero => intro i acc; simp [renderLoop]
  | succ n ih =>
    intro i acc
    rw [renderLoop, ih, List.range'_succ]
    simp [renderIter]

theorem renderLoop_thumbnail_paths :
    ∀ (n i : ℕ) (acc : RenderAcc),
      (renderLoop thumb p tdir downloaded_videos audio_file subtitle_path mode
          n i acc).thumbnail_paths
        = acc.thumbnail_paths
          ++ (List.range' (i + 1) n).flatMap (fun idx =>
              let t := thumb (final_path tdir p.video_subject idx) p.video_subject
              if t = "" then [] else [t]) := by
  intro n
  induction n with
  | zero => intro i acc; simp [renderLoop]
  | succ n ih =>
    intro i acc
    rw [renderLoop, ih, List.range'_succ]
    simp [renderIter]

theorem renderLoop_writes :
    ∀ (n i : ℕ) (acc : RenderAcc),
      (renderLoop thumb p tdir downloaded_videos audio_file subtitle_path mode n i acc).writes
        = acc.writes
          ++ (List.range (2 * n)).map (fun (k : ℕ) =>
              progUpd (F64.toRat (fsum (rstep p) (k + 1) acc.prog))) := by
  intro n
  induction n with
  | zero => intro i acc; simp [renderLoop]
  | succ n ih =>
    intro i acc
    rw [renderLoop, ih]
    have h2 : 2 * (n + 1) = 2 * n + 1 + 1 := by ring
    rw [h2, List.range_succ_eq_map, List.range_succ_eq_map]
    simp only [renderIter, List.map_cons, List.map_map, List.append_assoc,
      List.cons_append, List.singleton_append, List.nil_append]
    congr 1

end RenderLemmas

/-! ### Derived characterizations -/

theorem final_path_injective (tdir subject : String) :
    Function.Injective (final_path tdir subject) := by
  intro a b h
  have hd := congrArg String.data h
  simp only [final_path, joinPath, String.data_append, List.append_assoc] at hd
  have h1 := List.append_cancel_left hd
  have h2 := List.append_cancel_left h1
  have h3 := List.append_cancel_left h2
  have h4 := List.append_cancel_left h3
  exact natToDec_data_injective (List.append_cancel_right h4)

theorem default_thumbnail_path_ne_empty (video_path : String) :
    default_thumbnail_path video_path ≠ "" := by
  intro h
  have hd := congrArg String.data h
  simp only [default_thumbnail_path, String.data_append] at hd
  have h2 : ("-thumbnail.jpg" : String).data = [] := (List.append_eq_nil.mp hd).2
  exact absurd h2 (by decide)

theorem generate_final_videos_fvs (thumb : String → String → String) (p : VideoParams)
    (tdir : String) (dl : List String) (af sp : String) :
    (generate_final_videos thumb p tdir dl af sp).final_video_paths
      = (List.range' 1 p.video_count).map (final_path tdir p.video_subject) := by
  rw [generate_final_videos, renderLoop_final_video_paths]
  have h0 : ({} : RenderAcc).final_video_paths = [] := rfl
  rw [h0, List.nil_append]

theorem generate_final_videos_modes (thumb : String → String → String) (p : VideoParams)
    (tdir : String) (dl : List String) (af sp : String) :
    (generate_final_videos thumb p tdir dl af sp).combine_calls.map
        CombineCall.video_concat_mode
      = List.replicate p.video_count (effective_concat_mode p) := by
  rw [generate_final_videos, renderLoop_combine_calls]
  have h0 : ({} : RenderAcc).combine_calls = [] := rfl
  rw [h0, List.nil_append, List.map_map]
  have hf : (CombineCall.video_concat_mode ∘
      render_combine_call p tdir dl af (effective_concat_mode p))
      = Function.const ℕ (effective_concat_mode p) := rfl
  rw [hf, List.map_const]
  congr 1
  simp

/-! ### C1 — the terms stage on comma-separated strings -/

/-- C1 (counterexample): for `video_terms = "money,，stock"` the terms
stage returns `["money", "", "stock"]`, which contains an empty string,
contradicting the claim that the output contains no empty strings. -/
theorem C1_counterexample :
    (generate_terms envW paramsTermsStr "s").2 = some ["money", "", "stock"]
      ∧ "" ∈ (["money", "", "stock"] : List String) := by
  exact ⟨by decide, by decide⟩

/-- C1 (amended): for every Parameters record whose `video_terms` is a
non-empty string, the terms stage returns (with no failure write)
exactly the list obtained by splitting on `','` and `'，'` with
whitespace trimmed around each field, preserving the original order;
empty fields are kept as empty strings. -/
theorem C1_terms_trimmed_split (env : Env) (p : VideoParams) (s : String)
    (hs : p.video_terms = .str s) (hne : s ≠ "") (video_script : String) :
    generate_terms env p video_script = ([], some (specTrimmedSplit s)) := by
  have hfal : termsFalsy p.video_terms = false := by
    rw [hs]
    simp [termsFalsy, hne]
  have hval : terms_value env p video_script = specTrimmedSplit s := by
    rw [terms_value, hfal, hs]
    rfl
  have hnil : specTrimmedSplit s ≠ [] := by
    rw [specTrimmedSplit]
    intro h
    exact splitOnPred_ne_nil isCommaChar s.data (List.map_eq_nil_iff.mp h)
  rw [generate_terms, hval, if_neg hnil]

theorem C1_terms_trimmed_split_witness :
    generate_terms envW paramsTermsW "s" = ([], some (specTrimmedSplit " a,b ,，c")) :=
  C1_terms_trimmed_split envW paramsTermsW " a,b ,，c" rfl (by decide) "s"

/-! ### C2 — final file naming -/

/-- C2 (counterexample): for the repository's own default subject
`"金钱的作用"` the render stage names the file with the CJK characters
kept (Python `\w` matches them), while the claimed
`[A-Za-z0-9_-]`-sanitizer would replace all five characters by `_`;
the two names differ. -/
theorem C2_counterexample :
    (generate_final_videos envW.thumb paramsCJK "d" ["c.mp4"] "a.mp3" "").final_video_paths
        = ["d/金钱的作用-1.mp4"]
      ∧ specFinalName "d" "金钱的作用" 1 = "d/_____-1.mp4"
      ∧ ("d/金钱的作用-1.mp4" : String) ≠ "d/_____-1.mp4" := by
  refine ⟨by decide, by decide, by decide⟩

/-- C2 (amended): the render stage names the final video of variant
`idx = i + 1` as the trimmed subject with every character that is
neither a Python `\w` word character (Unicode: ASCII alphanumerics,
underscore, CJK ideographs, …) nor `-` replaced by `_`, suffixed with
`-idx.mp4` inside the task directory, and the names of distinct
variants are distinct. -/
theorem C2_final_video_names (thumb : String → String → String) (p : VideoParams)
    (tdir : String) (dl : List String) (af sp : String) :
    (generate_final_videos thumb p tdir dl af sp).final_video_paths
        = (List.range' 1 p.video_count).map (final_path tdir p.video_subject)
      ∧ (generate_final_videos thumb p tdir dl af sp).final_video_paths.Nodup := by
  refine ⟨generate_final_videos_fvs thumb p tdir dl af sp, ?_⟩
  rw [generate_final_videos_fvs]
  have hr : (List.range' 1 p.video_count).Nodup := @List.nodup_range' 1 p.video_count 1 (by norm_num)
  exact hr.map (final_path_injective tdir p.video_subject)

/-! ### C3 — forced random concatenation in the render stage -/

/-- C3: when more than one variant is requested the render stage passes
concatenation mode `random` to every `combine_videos` call, even if the
caller set `sequential`; with exactly one variant the caller's mode is
passed unchanged. -/
theorem C3_forced_random (thumb : String → String → String) (p : VideoParams)
    (tdir : String) (dl : List String) (af sp : String) :
    (1 < p.video_count →
      (generate_final_videos thumb p tdir dl af sp).combine_calls.map
          CombineCall.video_concat_mode
        = List.replicate p.video_count VideoConcatMode.random)
    ∧ (p.video_count = 1 →
      (generate_final_videos thumb p tdir dl af sp).combine_calls.map
          CombineCall.video_concat_mode
        = [p.video_concat_mode]) := by
  constructor
  · intro h
    rw [generate_final_videos_modes, effective_concat_mode, if_neg (by omega)]
  · intro h
    rw [generate_final_videos_modes, effective_concat_mode, if_pos h, h]
    rfl

theorem C3_forced_random_witness :
    (generate_final_videos envW.thumb paramsN2Seq "t" ["c.mp4"] "a.mp3" "").combine_calls.map
        CombineCall.video_concat_mode
      = List.replicate 2 VideoConcatMode.random :=
  (C3_forced_random envW.thumb paramsN2Seq "t" ["c.mp4"] "a.mp3" "").1 (by decide)

/-! ### C9 — the materials stage forwards the caller's concat mode -/

/-- C9: with more than one variant and a non-local source, the download
call issued by the materials stage still carries the caller's original
`video_concat_mode` (the forcing to `random` happens only in the render
stage's combine calls). -/
theorem C9_download_keeps_caller_mode (env : Env) (task_id : String) (p : VideoParams)
    (video_terms : List String) (audio_duration : ℤ)
    (thumb : String → String → String) (tdir : String) (dl : List String) (af sp : String)
    (h1 : 1 < p.video_count) (h2 : p.video_source ≠ "local") :
    (get_video_materials env task_id p video_terms audio_duration).2.2.map
        DownloadCall.video_contact_mode = [p.video_concat_mode]
      ∧ (generate_final_videos thumb p tdir dl af sp).combine_calls.map
          CombineCall.video_concat_mode
        = List.replicate p.video_count VideoConcatMode.random := by
  constructor
  · simp only [get_video_materials, if_neg h2]
    split <;> rfl
  · rw [generate_final_videos_modes, effective_concat_mode, if_neg (by omega)]

theorem C9_download_keeps_caller_mode_witness :
    (get_video_materials envW "t" paramsN2Seq ["money"] 30).2.2.map
        DownloadCall.video_contact_mode = [VideoConcatMode.sequential]
      ∧ (generate_final_videos envW.thumb paramsN2Seq "t" ["c.mp4"] "a.mp3"
          "").combine_calls.map CombineCall.video_concat_mode
        = List.replicate 2 VideoConcatMode.random :=
  C9_download_keeps_caller_mode envW "t" paramsN2Seq ["money"] 30 envW.thumb "t"
    ["c.mp4"] "a.mp3" "" (by decide) (by decide)

/-! ### C10 — thumbnail extraction fallback -/

/-- C10: `extract_first_frame` (with the default thumbnail path)
returns `""` exactly when first-frame extraction fails; when extraction
succeeds it returns the non-empty default thumbnail path regardless of
whether the text overlay succeeds (`o` is the overlay outcome), and the
render stage then collects that path for every variant. -/
theorem C10_thumbnail_fallback (o : Bool) (video_path title : String)
    (p : VideoParams) (tdir : String) (dl : List String) (af sp : String) :
    extract_first_frame false o video_path title = ""
      ∧ extract_first_frame true o video_path title = default_thumbnail_path video_path
      ∧ default_thumbnail_path video_path ≠ ""
      ∧ (generate_final_videos (overlay_title_on_first_frame true o) p tdir dl af
            sp).thumbnail_paths
          = (generate_final_videos (overlay_title_on_first_frame true o) p tdir dl af
              sp).final_video_paths.map default_thumbnail_path := by
  refine ⟨rfl, rfl, default_thumbnail_path_ne_empty video_path, ?_⟩
  rw [generate_final_videos_fvs, generate_final_videos, renderLoop_thumbnail_paths]
  have h0 : ({} : RenderAcc).thumbnail_paths = [] := rfl
  rw [h0, List.nil_append, List.map_map]
  have hfun : (fun idx =>
      let t := overlay_title_on_first_frame true o
        (final_path tdir p.video_subject idx) p.video_subject
      if t = "" then [] else [t])
      = fun idx => [default_thumbnail_path (final_path tdir p.video_subject idx)] := by
    funext idx
    have hne := default_thumbnail_path_ne_empty (final_path tdir p.video_subject idx)
    simp [overlay_title_on_first_frame, extract_first_frame, hne]
  rw [hfun, flatMap_singleton_map]
  rfl

/-! ### C8 — batch driver idempotence -/

theorem batch_foldl_skip (completed : List String) (process_appends : String → List String) :
    ∀ (l : List String) (acc : BatchOutcome), (∀ t ∈ l, t ∈ completed) →
      l.foldl (fun acc subject =>
        if subject ∈ completed then acc
        else { processed := acc.processed ++ [subject]
               appended := acc.appended ++ process_appends subject }) acc = acc := by
  intro l
  induction l with
  | nil => intro acc _; rfl
  | cons a l ih =>
    intro acc h
    rw [List.foldl_cons, if_pos (h a (by simp))]
    exact ih acc (fun t ht => h t (by simp [ht]))

/-- C8: when the (trimmed, deduplicated) completed set already contains
every subject of the task file, a batch run processes zero subjects:
the orchestrator is never invoked and nothing is appended to the
completed file. -/
theorem C8_batch_idempotent (tasks_present completed_present : Bool)
    (task_lines completed_lines : List String) (process_appends : String → List String)
    (h : ∀ t ∈ load_tasks tasks_present task_lines,
        t ∈ load_completed completed_present completed_lines) :
    main_run tasks_present completed_present task_lines completed_lines process_appends
      = {} := by
  rw [main_run]
  by_cases he : load_tasks tasks_present task_lines = []
  · rw [if_pos he]
  · rw [if_neg he]
    exact batch_foldl_skip _ _ _ {} h

theorem C8_batch_idempotent_witness :
    main_run true true [" alpha", "beta "] ["beta", "alpha", "alpha"] (fun s => [s])
      = {} :=
  C8_batch_idempotent true true [" alpha", "beta "] ["beta", "alpha", "alpha"]
    (fun s => [s]) (by decide)

/-! ### C7 — unrecognized `stop_at` values run the full pipeline -/

/-- C7: for every `stop_at` outside the five recognized early-exit
names, `start` behaves exactly as for the implicit default `"video"`:
same Task State Store writes, same return value. -/
theorem C7_unrecognized_stop_at (env : Env) (task_id : String) (p : VideoParams)
    (stop_at : String)
    (h : stop_at ∉ (["script", "terms", "audio", "subtitle", "materials"] : List String)) :
    start env task_id p stop_at = start env task_id p "video" := by
  simp only [List.mem_cons, List.not_mem_nil, or_false, not_or] at h
  obtain ⟨h1, h2, h3, h4, h5⟩ := h
  simp only [start, eq_false h1, eq_false h2, eq_false h3, eq_false h4, eq_false h5,
    eq_false (show ¬("video" : String) = "script" by decide),
    eq_false (show ¬("video" : String) = "terms" by decide),
    eq_false (show ¬("video" : String) = "audio" by decide),
    eq_false (show ¬("video" : String) = "subtitle" by decide),
    eq_false (show ¬("video" : String) = "materials" by decide),
    if_false]

theorem C7_unrecognized_stop_at_witness :
    start envW "t" paramsW "banana" = start envW "t" paramsW "video" :=
  C7_unrecognized_stop_at envW "t" paramsW "banana" (by decide)

/-! ### C5 — audio-stage failure -/

/-- C5: when the voice collaborator returns no result, a run that
reaches the audio stage writes exactly the checkpoints 5, 10, 20
followed by the two FAILED writes (the stage's and the orchestrator's),
returns `None`, ends in state FAILED, and the last written progress
value is 20; the writes carry no result fields, so no audio path
appears anywhere. -/
theorem C5_audio_failure (env : Env) (task_id : String) (p : VideoParams) (stop_at : String)
    (hA : effective_script env p ≠ "")
    (hB : hasErrorMarker (effective_script env p) = false)
    (hT : terms_ok env p)
    (htts : env.tts_ok = false)
    (h1 : stop_at ≠ "script") (h2 : stop_at ≠ "terms") :
    start env task_id p stop_at
        = ([procUpd 5, procUpd 10, procUpd 20, failUpd, failUpd], none)
      ∧ lastState (start env task_id p stop_at).1 = some TaskState.failed
      ∧ lastProgress (start env task_id p stop_at).1 = some 20 := by
  have hgs : generate_script env p = ([], some (effective_script env p)) := by
    rw [generate_script, if_neg hA]
  have hga : generate_audio env (env.task_dir task_id) = ([failUpd], none) := by
    simp [generate_audio, htts]
  have hmain : start env task_id p stop_at
      = ([procUpd 5, procUpd 10, procUpd 20, failUpd, failUpd], none) := by
    by_cases hloc : p.video_source = "local"
    · simp [start, hgs, hB, h1, h2, hloc, hga]
    · have hterms : terms_value env p (effective_script env p) ≠ [] := hT hloc
      have hgt : generate_terms env p (effective_script env p)
          = ([], some (terms_value env p (effective_script env p))) := by
        rw [generate_terms, if_neg hterms]
      simp [start, hgs, hB, h1, h2, hloc, hgt, hga]
  refine ⟨hmain, ?_, ?_⟩
  · rw [hmain]
    simp [lastState, procUpd, failUpd]
  · rw [hmain]
    simp [lastProgress, procUpd, failUpd]

theorem C5_audio_failure_witness :
    start envNoTts "t" paramsW "video"
        = ([procUpd 5, procUpd 10, procUpd 20, failUpd, failUpd], none)
      ∧ lastState (start envNoTts "t" paramsW "video").1 = some TaskState.failed
      ∧ lastProgress (start envNoTts "t" paramsW "video").1 = some 20 :=
  C5_audio_failure envNoTts "t" paramsW "video" (by decide) (by decide)
    (fun _ => by decide) (by decide) (by decide) (by decide)

/-! ### C6 — empty whisper subtitles are a soft failure -/

/-- C6: with subtitles enabled, the whisper provider configured, and
the subtitle file parsing to zero lines, the subtitle stage returns
`""` (and performs no Task State Store write at all — the function
contains none); a run with `stop_at = "subtitle"` still completes:
it returns exactly `{subtitle_path = ""}`, the last written state is
COMPLETE, and the last written progress is 100. -/
theorem C6_soft_subtitle_failure (env : Env) (task_id : String) (p : VideoParams)
    (hA : effective_script env p ≠ "")
    (hB : hasErrorMarker (effective_script env p) = false)
    (hT : terms_ok env p)
    (htts : env.tts_ok = true)
    (hsub : p.subtitle_enabled = true)
    (hprov : pyLower (pyStrip env.subtitle_provider) = "whisper")
    (hlines : env.whisper_lines = []) :
    generate_subtitle env p (env.task_dir task_id) = ""
      ∧ start env task_id p "subtitle"
          = ([procUpd 5, procUpd 10, procUpd 20, procUpd 30,
              complUpd { subtitle_path := some "" }],
             some { subtitle_path := some "" })
      ∧ lastState (start env task_id p "subtitle").1 = some TaskState.complete
      ∧ lastProgress (start env task_id p "subtitle").1 = some 100 := by
  have hgs : generate_script env p = ([], some (effective_script env p)) := by
    rw [generate_script, if_neg hA]
  have hga : generate_audio env (env.task_dir task_id)
      = ([], some (audio_path (env.task_dir task_id), Int.ceil env.tts_duration)) := by
    simp [generate_audio, htts]
  have hsubt : generate_subtitle env p (env.task_dir task_id) = "" := by
    rw [generate_subtitle]
    simp [hsub, hprov, hlines]
  have hmain : start env task_id p "subtitle"
      = ([procUpd 5, procUpd 10, procUpd 20, procUpd 30,
          complUpd { subtitle_path := some "" }],
         some { subtitle_path := some "" }) := by
    by_cases hloc : p.video_source = "local"
    · simp [start, hgs, hB, hloc, hga, hsubt,
        show ¬("subtitle" : String) = "script" by decide,
        show ¬("subtitle" : String) = "terms" by decide,
        show ¬("subtitle" : String) = "audio" by decide]
    · have hterms : terms_value env p (effective_script env p) ≠ [] := hT hloc
      have hgt : generate_terms env p (effective_script env p)
          = ([], some (terms_value env p (effective_script env p))) := by
        rw [generate_terms, if_neg hterms]
      simp [start, hgs, hB, hloc, hgt, hga, hsubt,
        show ¬("subtitle" : String) = "script" by decide,
        show ¬("subtitle" : String) = "terms" by decide,
        show ¬("subtitle" : String) = "audio" by decide]
  refine ⟨hsubt, hmain, ?_, ?_⟩
  · rw [hmain]
    simp [lastState, procUpd, complUpd]
  · rw [hmain]
    simp [lastProgress, procUpd, complUpd]

theorem C6_soft_subtitle_failure_witness :
    generate_subtitle envNoSubLines paramsW (envNoSubLines.task_dir "t") = ""
      ∧ start envNoSubLines "t" paramsW "subtitle"
          = ([procUpd 5, procUpd 10, procUpd 20, procUpd 30,
              complUpd { subtitle_path := some "" }],
             some { subtitle_path := some "" })
      ∧ lastState (start envNoSubLines "t" paramsW "subtitle").1 = some TaskState.complete
      ∧ lastProgress (start envNoSubLines "t" paramsW "subtitle").1 = some 100 :=
  C6_soft_subtitle_failure envNoSubLines "t" paramsW (by decide) (by decide)
    (fun _ => by decide) (by decide) (by decide) (by decide) (by decide)

/-! ### C4 — the progress trace of a successful full run -/

theorem generate_final_videos_writes (thumb : String → String → String) (p : VideoParams)
    (tdir : String) (dl : List String) (af sp : String) :
    (generate_final_videos thumb p tdir dl af sp).writes
      = (List.range (2 * p.video_count)).map
          (fun (k : ℕ) => progUpd (F64.toRat (fsum (rstep p) (k + 1) (F64.ofNat 50)))) := by
  rw [generate_final_videos, renderLoop_writes]
  have h0 : ({} : RenderAcc).writes = [] := rfl
  have h1 : ({} : RenderAcc).prog = F64.ofNat 50 := rfl
  rw [h0, h1, List.nil_append]

theorem get_video_materials_writes_nil (env : Env) (task_id : String) (p : VideoParams)
    (video_terms : List String) (audio_duration : ℤ)
    (h : (get_video_materials env task_id p video_terms audio_duration).2.1.isSome = true) :
    (get_video_materials env task_id p video_terms audio_duration).1 = [] := by
  rw [get_video_materials] at h ⊢
  by_cases hsrc : p.video_source = "local"
  · rw [if_pos hsrc] at h ⊢
    by_cases hemp : env.preprocess_video p.video_materials p.video_clip_duration = []
    · rw [if_pos hemp] at h
      simp at h
    · rw [if_neg hemp]
  · rw [if_neg hsrc] at h ⊢
    by_cases hemp : env.download_videos
        (materials_download_call task_id p video_terms audio_duration) = []
    · rw [if_pos hemp] at h
      simp at h
    · rw [if_neg hemp]

theorem generate_final_videos_fvs_ne_nil (thumb : String → String → String)
    (p : VideoParams) (tdir : String) (dl : List String) (af sp : String)
    (hN : 1 ≤ p.video_count) :
    (generate_final_videos thumb p tdir dl af sp).final_video_paths ≠ [] := by
  rw [generate_final_videos_fvs]
  simp only [ne_eq, List.map_eq_nil_iff]
  intro hcon
  have := List.range'_eq_nil.mp hcon
  omega

/-- The writes and return value of a successful full (`stop_at =
"video"`) run, and its progress trace. -/
theorem start_video_run (env : Env) (task_id : String) (p : VideoParams)
    (hA : effective_script env p ≠ "")
    (hB : hasErrorMarker (effective_script env p) = false)
    (hT : terms_ok env p)
    (htts : env.tts_ok = true)
    (hM : materials_ok env task_id p)
    (hN : 1 ≤ p.video_count) :
    (start env task_id p "video").2.isSome = true
      ∧ run_trace env task_id p "video" = full_trace p := by
  have hgs : generate_script env p = ([], some (effective_script env p)) := by
    rw [generate_script, if_neg hA]
  have hga : generate_audio env (env.task_dir task_id)
      = ([], some (audio_path (env.task_dir task_id), Int.ceil env.tts_duration)) := by
    simp [generate_audio, htts]
  obtain ⟨dl, hdl⟩ := Option.isSome_iff_exists.mp hM
  have hgmw := get_video_materials_writes_nil env task_id p
    (termsToList (run_terms_out env p)) (Int.ceil env.tts_duration) hM
  have hfvs := generate_final_videos_fvs_ne_nil env.thumb p (env.task_dir task_id) dl
    (audio_path (env.task_dir task_id)) (generate_subtitle env p (env.task_dir task_id)) hN
  have hmain : start env task_id p "video"
      = ([procUpd 5, procUpd 10, procUpd 20, procUpd 30, procUpd 40, procUpd 50]
          ++ (generate_final_videos env.thumb p (env.task_dir task_id) dl
              (audio_path (env.task_dir task_id))
              (generate_subtitle env p (env.task_dir task_id))).writes
          ++ [complUpd
              { videos := some (generate_final_videos env.thumb p (env.task_dir task_id) dl
                  (audio_path (env.task_dir task_id))
                  (generate_subtitle env p (env.task_dir task_id))).final_video_paths
                combined_videos := some (generate_final_videos env.thumb p
                  (env.task_dir task_id) dl (audio_path (env.task_dir task_id))
                  (generate_subtitle env p (env.task_dir task_id))).combined_video_paths
                thumbnails := some (generate_final_videos env.thumb p (env.task_dir task_id)
                  dl (audio_path (env.task_dir task_id))
                  (generate_subtitle env p (env.task_dir task_id))).thumbnail_paths
                script := some (effective_script env p)
                terms := some (run_terms_out env p)
                audio_file := some (audio_path (env.task_dir task_id))
                audio_duration := some (Int.ceil env.tts_duration)
                subtitle_path := some (generate_subtitle env p (env.task_dir task_id))
                materials := some dl }],
         some
              { videos := some (generate_final_videos env.thumb p (env.task_dir task_id) dl
                  (audio_path (env.task_dir task_id))
                  (generate_subtitle env p (env.task_dir task_id))).final_video_paths
                combined_videos := some (generate_final_videos env.thumb p
                  (env.task_dir task_id) dl (audio_path (env.task_dir task_id))
                  (generate_subtitle env p (env.task_dir task_id))).combined_video_paths
                thumbnails := some (generate_final_videos env.thumb p (env.task_dir task_id)
                  dl (audio_path (env.task_dir task_id))
                  (generate_subtitle env p (env.task_dir task_id))).thumbnail_paths
                script := some (effective_script env p)
                terms := some (run_terms_out env p)
                audio_file := some (audio_path (env.task_dir task_id))
                audio_duration := some (Int.ceil env.tts_duration)
                subtitle_path := some (generate_subtitle env p (env.task_dir task_id))
                materials := some dl }) := by
    by_cases hloc : p.video_source = "local"
    · have hrt : run_terms_out env p = TermsOut.strEmpty := by
        rw [run_terms_out, if_pos hloc]
      rw [hrt] at hdl hgmw ⊢
      simp [start, hgs, hB, hloc, hga, hdl, hgmw, hfvs,
        show ¬("video" : String) = "script" by decide,
        show ¬("video" : String) = "terms" by decide,
        show ¬("video" : String) = "audio" by decide,
        show ¬("video" : String) = "subtitle" by decide,
        show ¬("video" : String) = "materials" by decide]
    · have hterms : terms_value env p (effective_script env p) ≠ [] := hT hloc
      have hgt : generate_terms env p (effective_script env p)
          = ([], some (terms_value env p (effective_script env p))) := by
        rw [generate_terms, if_neg hterms]
      have hrt : run_terms_out env p
          = TermsOut.list (terms_value env p (effective_script env p)) := by
        rw [run_terms_out, if_neg hloc]
      rw [hrt] at hdl hgmw ⊢
      simp [start, hgs, hB, hloc, hgt, hga, hdl, hgmw, hfvs,
        show ¬("video" : String) = "script" by decide,
        show ¬("video" : String) = "terms" by decide,
        show ¬("video" : String) = "audio" by decide,
        show ¬("video" : String) = "subtitle" by decide,
        show ¬("video" : String) = "materials" by decide]
  constructor
  · rw [hmain]
    rfl
  · rw [run_trace, hmain]
    rw [List.filterMap_append, List.filterMap_append]
    rw [generate_final_videos_writes, List.filterMap_map]
    have hcomp : (Update.u_progress ∘ fun (k : ℕ) =>
        progUpd (F64.toRat (fsum (rstep p) (k + 1) (F64.ofNat 50))))
        = fun (k : ℕ) => some (F64.toRat (fsum (rstep p) (k + 1) (F64.ofNat 50))) := rfl
    rw [hcomp, filterMap_some_map]
    rfl

set_option maxRecDepth 8000 in
/-- C4 (counterexample): the render loop's progress writes are IEEE
binary64 partial sums and they refute the claim twice over.  With
`video_count = 3` (every stage succeeding) the first render write is
the float `8209686820727467/2^47 ≈ 58.333`, not an integer.  With
`video_count = 6` the last render write is the float
`7036874417766402/2^46 = 100.00000000000003`, which exceeds 100 and is
followed by the final write of exactly 100, so the written sequence is
not non-decreasing and not bounded by 100 either. -/
theorem C4_counterexample :
    ((start envW "t" paramsN3 "video").2.isSome = true
      ∧ ¬ all_integral (run_trace envW "t" paramsN3 "video"))
    ∧ ((start envW "t" paramsN6 "video").2.isSome = true
      ∧ (run_trace envW "t" paramsN6 "video").get? 17
          = some ((7036874417766402 : ℚ) / 2 ^ 46)
      ∧ (run_trace envW "t" paramsN6 "video").get? 18 = some 100
      ∧ (100 : ℚ) < (7036874417766402 : ℚ) / 2 ^ 46) := by
  have h3 := start_video_run envW "t" paramsN3 (by decide) (by decide)
    (fun _ => by decide) (by decide) (by unfold materials_ok; decide) (by decide)
  have h6 := start_video_run envW "t" paramsN6 (by decide) (by decide)
    (fun _ => by decide) (by decide) (by unfold materials_ok; decide) (by decide)
  refine ⟨⟨h3.1, ?_⟩, h6.1, ?_, ?_, ?_⟩
  · rw [h3.2]
    intro hall
    have hmem : F64.toRat (fsum (rstep paramsN3) 1 (F64.ofNat 50)) ∈ full_trace paramsN3 := by
      rw [full_trace]
      refine List.mem_append.mpr (Or.inl (List.mem_append.mpr (Or.inr ?_)))
      rw [render_trace]
      exact List.mem_map.mpr ⟨0, by decide, rfl⟩
    obtain ⟨z, hz⟩ := hall _ hmem
    have hv : fsum (rstep paramsN3) 1 (F64.ofNat 50)
        = ⟨8209686820727467, -((47 : ℕ) : ℤ)⟩ := by decide
    rw [hv, toRat_negExp] at hz
    have hz' : (8209686820727467 : ℚ) = (z : ℚ) * 2 ^ 47 := by
      field_simp at hz
      linarith
    have hzz : (8209686820727467 : ℤ) = z * 2 ^ 47 := by exact_mod_cast hz'
    omega
  · rw [h6.2]
    have hv6 : fsum (rstep paramsN6) (11 + 1) (F64.ofNat 50)
        = ⟨7036874417766402, -((46 : ℕ) : ℤ)⟩ := by decide
    have hidx : (full_trace paramsN6).get? 17
        = some (F64.toRat (fsum (rstep paramsN6) (11 + 1) (F64.ofNat 50))) := rfl
    rw [hidx, hv6, toRat_negExp]
    norm_num
  · rw [h6.2]
    rfl
  · rw [lt_div_iff₀ (by positivity)]
    norm_num

/-- C4 (amended): within one successful full run (`stop_at="video"`,
every stage succeeds), the sequence of progress values written to the
Task State Store is exactly 5, 10, 20, 30, 40, 50, then the binary64
partial sums of `k` increments of `50/N/2` for `k = 1, …, 2N`
(`N = video_count`, each float operation rounded to nearest/ties-even
as in the source), then exactly 100 — in particular the run's last
written progress value is exactly 100 and the six checkpoints outside
the render loop are integers; the render-loop writes, however, need
not be integers, need not stay at most 100 and need not be
non-decreasing (see the counterexample). -/
theorem C4_progress_trace (env : Env) (task_id : String) (p : VideoParams)
    (hA : effective_script env p ≠ "")
    (hB : hasErrorMarker (effective_script env p) = false)
    (hT : terms_ok env p)
    (htts : env.tts_ok = true)
    (hM : materials_ok env task_id p)
    (hN : 1 ≤ p.video_count) :
    run_trace env task_id p "video" = full_trace p
      ∧ (run_trace env task_id p "video").getLast? = some 100
      ∧ (start env task_id p "video").2.isSome = true := by
  have h := start_video_run env task_id p hA hB hT htts hM hN
  refine ⟨h.2, ?_, h.1⟩
  rw [h.2, full_trace, List.getLast?_concat]

theorem C4_progress_trace_witness :
    run_trace envW "t" paramsW "video" = full_trace paramsW
      ∧ (run_trace envW "t" paramsW "video").getLast? = some 100
      ∧ (start envW "t" paramsW "video").2.isSome = true :=
  C4_progress_trace envW "t" paramsW (by decide) (by decide) (fun _ => by decide)
    (by decide) (by unfold materials_ok; decide) (by decide)

end MPT
